import Mathlib

/-!
Verification of the progress-reporting subsystem of the `ouch` archive tool
(`src/progress.rs`, together with the `ProgressBarPolicy` of `src/cli.rs`).

The Rust source is shallowly embedded:

* `std::sync::mpsc` channels become `MpscChannel`: an explicit FIFO queue
  together with liveness flags for the two endpoints.  `try_recv` pops the
  head of the queue, reports `empty` on an empty queue with a live sender and
  `disconnected` on an empty queue whose senders are gone; `send` appends to
  the queue and reports failure (message lost) when the receiver is gone.
* `DisplayHandle` (`progress.rs` lines 12-26) is a byte buffer plus the
  sending half of the message channel.  `write` appends bytes and returns
  `Ok(len)`; `flush` runs `String::from_utf8(..).unwrap()` followed by
  `send(..).unwrap()`, so its outcome is `ok`, or `panicked` when either
  unwrap fires.  A Rust `String` is represented by its UTF-8 byte list and
  `String::from_utf8` by the executable validator `isValidUtf8`, which
  follows the UTF-8 byte-range table enforced by Rust's standard library.
* The render loop of `ProgressByCursor::new` and the `Drop` impls become a
  small-step system `Sys`/`Step`: the render thread repeatedly checks the
  shutdown channel with `try_recv` and, while that errors, performs one tick
  (`cursorTick`); when a signal arrives it finishes the bar and exits.
  `Drop` performs `let _ = self.draw_stop.send(())` and returns, dropping
  both sending halves.  `signalsSent` is ghost instrumentation counting the
  send calls on the shutdown channel.
* The render loop body of `ProgressByPath::new` becomes `pathTick`, with the
  filesystem abstracted as a partial size map `Nat → Option Nat`; the
  `metadata().unwrap()` and `canonicalize().unwrap()` calls panic (`none`)
  when the lookup fails.
-/

/-- Messages travelling over the display channel: the UTF-8 bytes of a Rust
`String`. -/
abbrev Msg := List Nat

/-- True when `b` is a UTF-8 continuation byte (`0x80 ..= 0xBF`). -/
def isCont (b : Nat) : Bool :=
  decide (0x80 ≤ b) && decide (b ≤ 0xBF)

/-- Executable model of the UTF-8 validity check performed by Rust's
`String::from_utf8`, following the byte-range table of RFC 3629 as enforced
by the Rust standard library. -/
def isValidUtf8 : List Nat → Bool
  | [] => true
  | b :: rest =>
    if b ≤ 0x7F then
      isValidUtf8 rest
    else if 0xC2 ≤ b ∧ b ≤ 0xDF then
      match rest with
      | b2 :: rest2 => isCont b2 && isValidUtf8 rest2
      | [] => false
    else if 0xE0 ≤ b ∧ b ≤ 0xEF then
      match rest with
      | b2 :: b3 :: rest3 =>
        (if b == 0xE0 then decide (0xA0 ≤ b2) && decide (b2 ≤ 0xBF)
         else if b == 0xED then decide (0x80 ≤ b2) && decide (b2 ≤ 0x9F)
         else isCont b2) && isCont b3 && isValidUtf8 rest3
      | _ => false
    else if 0xF0 ≤ b ∧ b ≤ 0xF4 then
      match rest with
      | b2 :: b3 :: b4 :: rest4 =>
        (if b == 0xF0 then decide (0x90 ≤ b2) && decide (b2 ≤ 0xBF)
         else if b == 0xF4 then decide (0x80 ≤ b2) && decide (b2 ≤ 0x8F)
         else isCont b2) && isCont b3 && isCont b4 && isValidUtf8 rest4
      | _ => false
    else false

/-- One `std::sync::mpsc` channel: the queued values plus liveness of the
two endpoints. -/
structure MpscChannel (α : Type) where
  queue : List α
  sendersAlive : Bool
  receiverAlive : Bool
deriving DecidableEq

/-- Result of `Receiver::try_recv`. -/
inductive TryRecvResult (α : Type) where
  | ok (a : α)
  | empty
  | disconnected
deriving DecidableEq

/-- Model of `Receiver::try_recv`: pop the oldest queued value; on an empty
queue report `empty` while a sender is alive and `disconnected` otherwise. -/
def tryRecv {α : Type} (c : MpscChannel α) : TryRecvResult α × MpscChannel α :=
  match c.queue with
  | a :: rest => (TryRecvResult.ok a, { c with queue := rest })
  | [] =>
    if c.sendersAlive then (TryRecvResult.empty, c) else (TryRecvResult.disconnected, c)

/-- Model of `Sender::send`: append to the queue when the receiver is alive
(`true`), otherwise drop the value and report failure (`false`). -/
def mpscSend {α : Type} (c : MpscChannel α) (a : α) : MpscChannel α × Bool :=
  if c.receiverAlive then ({ c with queue := c.queue ++ [a] }, true) else (c, false)

/-- `DisplayHandle` (progress.rs lines 12-15): the private byte buffer and
the sending half of the message channel. -/
structure DisplayHandle where
  buf : List Nat
  sender : MpscChannel Msg
deriving DecidableEq

/-- Model of `<DisplayHandle as io::Write>::write` (progress.rs lines 17-20):
`self.buf.extend(buf); Ok(buf.len())`.  The second component models the
`io::Result<usize>`: `some n` is `Ok(n)`, `none` would be `Err`. -/
def DisplayHandle.write (h : DisplayHandle) (bs : List Nat) : DisplayHandle × Option Nat :=
  ({ h with buf := h.buf ++ bs }, some bs.length)

/-- Observable outcome of `<DisplayHandle as io::Write>::flush`: the Rust
signature is `io::Result<()>`, and on top of returning `Ok` or `Err` the
thread may panic, so the outcomes are `ok` (with the post-state), `err`
(an error value returned to the caller) and `panicked`. -/
inductive FlushOutcome where
  | ok (h : DisplayHandle)
  | err (h : DisplayHandle)
  | panicked
deriving DecidableEq

/-- Model of `<DisplayHandle as io::Write>::flush` (progress.rs lines 22-25):
`self.sender.send(String::from_utf8(self.buf.drain(..).collect()).unwrap()).unwrap(); Ok(())`.
The first `unwrap` panics when the drained bytes are not valid UTF-8; the
second panics when the receiving half is gone. -/
def DisplayHandle.flush (h : DisplayHandle) : FlushOutcome :=
  if isValidUtf8 h.buf then
    match mpscSend h.sender h.buf with
    | (ch2, true) => FlushOutcome.ok { buf := [], sender := ch2 }
    | (_, false) => FlushOutcome.panicked
  else
    FlushOutcome.panicked

/-- Fold a sequence of `write` calls over a handle (each call in the source,
e.g. `write!(display_handle, ..)` in tar.rs/zip.rs, appends one byte
slice). -/
def writeAll (h : DisplayHandle) (ws : List (List Nat)) : DisplayHandle :=
  ws.foldl (fun acc w => (DisplayHandle.write acc w).1) h

/-- Observable state of the `indicatif::ProgressBar` widget as driven by
this code: the length passed to `ProgressBar::new`, the last values given
to `set_position` and `set_prefix`, and whether `finish` has run. -/
structure PB where
  total : Nat
  pos : Nat
  pfx : Msg
  finished : Bool
deriving DecidableEq

/-- Program counter of the spawned render thread: at the top of the
`while draw_rx.try_recv().is_err()` loop, or exited after `pb.finish()`. -/
inductive RenderPC where
  | loopHead
  | exited
deriving DecidableEq

/-- One body iteration of the render loop of `ProgressByCursor::new`
(progress.rs lines 59-68): `pb.set_position(cursor.position())` with the
cursor position supplied as `sample`, then drain at most one pending
message with `try_recv` and `set_prefix` it. -/
def cursorTick (pb : PB) (msgCh : MpscChannel Msg) (sample : Nat) : PB × MpscChannel Msg :=
  match tryRecv msgCh with
  | (TryRecvResult.ok m, mch) => ({ pb with pos := sample, pfx := m }, mch)
  | (_, mch) => ({ pb with pos := sample }, mch)

/-- One body iteration of the render loop of `ProgressByPath::new`
(progress.rs lines 110-116): drain at most one message, then
`pb.set_position(output_file_path.metadata().unwrap().len())`.  The
filesystem is abstracted as `md : Nat → Option Nat` mapping a path to the
current file size; `metadata()` failing (path absent) makes the `unwrap`
panic, modelled by `none`. -/
def pathTick (pb : PB) (msgCh : MpscChannel Msg) (md : Nat → Option Nat) (path : Nat) :
    Option (PB × MpscChannel Msg) :=
  match md path with
  | some len =>
    match tryRecv msgCh with
    | (TryRecvResult.ok m, mch) => some ({ pb with pfx := m, pos := len }, mch)
    | (_, mch) => some ({ pb with pos := len }, mch)
  | none => none

/-- Model of the canonicalize step of `ProgressByPath::new` (progress.rs
lines 92-97): `output_file_path.canonicalize().unwrap()` panics (`none`)
when the path cannot be canonicalized (in particular when it does not
exist); on success the canonical path is captured for the render loop. -/
def progressByPathNew (canonicalize : Nat → Option Nat) (path : Nat) : Option Nat :=
  match canonicalize path with
  | some p => some p
  | none => none

/-- Whole-system state for one `ProgressByCursor` controller: the shutdown
channel (`draw_stop`/`draw_rx`), the message channel, the bar widget, the
render thread's program counter, whether the controller has been dropped,
and ghost instrumentation counting `send` calls on the shutdown channel. -/
structure Sys where
  drawCh : MpscChannel Unit
  msgCh : MpscChannel Msg
  pb : PB
  rpc : RenderPC
  dropped : Bool
  signalsSent : Nat
deriving DecidableEq

/-- State of the system right after `ProgressByCursor::new` returns: both
channels empty with both endpoints alive, a fresh bar of length `total`,
the render thread at the loop head, controller live. -/
def initSys (total : Nat) : Sys :=
  { drawCh := { queue := [], sendersAlive := true, receiverAlive := true }
    msgCh := { queue := [], sendersAlive := true, receiverAlive := true }
    pb := { total := total, pos := 0, pfx := [], finished := false }
    rpc := RenderPC.loopHead
    dropped := false
    signalsSent := 0 }

/-- One step of the render thread from the loop head (progress.rs lines
59-68): `try_recv` on the shutdown channel; on `Ok` leave the loop, run
`pb.finish()` and exit (dropping both receiving halves); on any error
(empty or disconnected) run one `cursorTick` body and come back to the
loop head.  `sample` is the cursor position read during the tick. -/
def renderStep (s : Sys) (sample : Nat) : Sys :=
  match tryRecv s.drawCh with
  | (TryRecvResult.ok _, ch2) =>
    { s with
        drawCh := { ch2 with receiverAlive := false }
        msgCh := { s.msgCh with receiverAlive := false }
        pb := { s.pb with finished := true }
        rpc := RenderPC.exited }
  | (_, ch2) =>
    { s with
        drawCh := ch2
        msgCh := (cursorTick s.pb s.msgCh sample).2
        pb := (cursorTick s.pb s.msgCh sample).1
        rpc := RenderPC.loopHead }

/-- Model of `Drop for ProgressByCursor` / `Drop for ProgressByPath`
(progress.rs lines 78-82 and 126-130): `let _ = self.draw_stop.send(());`
— the send result is discarded — and then both sending halves are dropped
as the struct's fields are destroyed.  The step returns immediately: there
is no acknowledgement channel and no join. -/
def dropStep (s : Sys) : Sys :=
  { s with
      drawCh := { (mpscSend s.drawCh ()).1 with sendersAlive := false }
      msgCh := { s.msgCh with sendersAlive := false }
      dropped := true
      signalsSent := s.signalsSent + 1 }

/-- Interleaving semantics: the render thread may step whenever it is at
its loop head (with an arbitrary cursor sample), and the operation thread
may drop the controller once. -/
inductive Step : Sys → Sys → Prop where
  | render (s : Sys) (sample : Nat) (h : s.rpc = RenderPC.loopHead) : Step s (renderStep s sample)
  | drop (s : Sys) (h : s.dropped = false) : Step s (dropStep s)

/-- Reachability of system states under the interleaving semantics. -/
abbrev Reachable : Sys → Sys → Prop :=
  Relation.ReflTransGen Step

/-- `ProgressBarPolicy` from src/cli.rs lines 14-30. -/
inductive ProgressBarPolicy where
  | Disable
  | Enable
deriving DecidableEq

/-- Model of `ProgressBarPolicy::is_enabled` (cli.rs lines 23-29). -/
def ProgressBarPolicy.is_enabled : ProgressBarPolicy → Bool
  | ProgressBarPolicy.Enable => true
  | ProgressBarPolicy.Disable => false

/-- Modelled from the spec: the disabled-policy print loop is not under
src/ (the `commands` module that consumes `ProgressBarPolicy` is absent;
cli.rs only defines the policy).  Per the spec, when the policy is
`Disable` no bar widget is created and a thread blocks on the message
channel, printing every received `DisplayMessage` as a plain line, until
the channel is closed.  `queue` is the sequence of messages sent before
the channel closed and `printed` the lines already printed; the result is
the final list of printed lines. -/
def printLoop (queue : List Msg) (printed : List Msg) : List Msg :=
  match queue with
  | [] => printed
  | m :: rest => printLoop rest (printed ++ [m])

/-- Test fixture: a filesystem in which no path exists. -/
def absentFs : Nat → Option Nat :=
  fun _ => none

/-- Test fixture: a filesystem in which every path has size `n`. -/
def sizedFs (n : Nat) : Nat → Option Nat :=
  fun _ => some n

theorem writeAll_spec (ws : List (List Nat)) :
    ∀ h : DisplayHandle, writeAll h ws = { buf := h.buf ++ ws.flatten, sender := h.sender } := by
  induction ws with
  | nil =>
    intro h
    simp [writeAll]
  | cons w ws ih =>
    intro h
    have step : writeAll h (w :: ws) = writeAll { buf := h.buf ++ w, sender := h.sender } ws := by
      simp [writeAll, DisplayHandle.write]
    rw [step, ih]
    simp [List.append_assoc]

theorem printLoop_spec (q : List Msg) : ∀ p : List Msg, printLoop q p = p ++ q := by
  induction q with
  | nil => intro p; simp [printLoop]
  | cons m rest ih => intro p; simp [printLoop, ih]

theorem renderStep_preserves (s : Sys) (sample : Nat) :
    (renderStep s sample).signalsSent = s.signalsSent
      ∧ (renderStep s sample).dropped = s.dropped
      ∧ ((renderStep s sample).rpc = RenderPC.exited →
          (renderStep s sample).drawCh.receiverAlive = false) := by
  unfold renderStep
  rcases htr : tryRecv s.drawCh with ⟨r, ch2⟩
  cases r <;> simp

theorem stepInv (a b : Sys) (hstep : Step a b)
    (ih : a.signalsSent = (if a.dropped then 1 else 0)
      ∧ (a.rpc = RenderPC.exited → a.drawCh.receiverAlive = false)) :
    b.signalsSent = (if b.dropped then 1 else 0)
      ∧ (b.rpc = RenderPC.exited → b.drawCh.receiverAlive = false) := by
  cases hstep with
  | render sample hpc =>
    obtain ⟨hsig, hdrop, hrecv⟩ := renderStep_preserves a sample
    exact ⟨by rw [hsig, hdrop]; exact ih.1, hrecv⟩
  | drop hnd =>
    refine ⟨?_, ?_⟩
    · simp [dropStep, ih.1, hnd]
    · intro hexit
      have hrecv : a.drawCh.receiverAlive = false := by
        apply ih.2
        simpa [dropStep] using hexit
      simp [dropStep, mpscSend, hrecv]

theorem sysInv (total : Nat) (s : Sys) (h : Reachable (initSys total) s) :
    s.signalsSent = (if s.dropped then 1 else 0)
      ∧ (s.rpc = RenderPC.exited → s.drawCh.receiverAlive = false) := by
  induction h with
  | refl => simp [initSys]
  | tail hab hbc ih => exact stepInv _ _ hbc ih

/-- C2 (confirmed): for every sequence of write calls on the display handle
followed by one flush, when the accumulated bytes are valid UTF-8 and the
render thread still holds the receiving half, exactly one message — the
concatenation of all bytes written since the previous flush — is appended
to the message channel, and the internal buffer is empty afterwards. -/
theorem flush_after_writes_sends_concatenation (h0 : DisplayHandle) (ws : List (List Nat))
    (hbuf : h0.buf = []) (hv : isValidUtf8 ws.flatten = true)
    (hr : h0.sender.receiverAlive = true) :
    DisplayHandle.flush (writeAll h0 ws)
      = FlushOutcome.ok
          { buf := [], sender := { h0.sender with queue := h0.sender.queue ++ [ws.flatten] } } := by
  rw [writeAll_spec, hbuf]
  simp [DisplayHandle.flush, mpscSend, hv, hr]

/-- Witness for C2 at a concrete input: writing `[72]` then `[105]`
("H", "i") and flushing sends the single message `[72, 105]` ("Hi") and
leaves the buffer empty. -/
theorem flush_after_writes_sends_concatenation_witness :
    DisplayHandle.flush (writeAll ⟨[], ⟨[], true, true⟩⟩ [[72], [105]])
      = FlushOutcome.ok ⟨[], ⟨[[72, 105]], true, true⟩⟩ :=
  flush_after_writes_sends_concatenation ⟨[], ⟨[], true, true⟩⟩ [[72], [105]] rfl (by decide) rfl

/-- C10 (confirmed): `write` on the display handle always succeeds,
returning `Ok` of exactly the input length, and only appends the bytes to
the internal buffer; a sequence of writes alone never touches the message
channel. -/
theorem write_appends_and_returns_len (h : DisplayHandle) (bs : List Nat)
    (ws : List (List Nat)) :
    DisplayHandle.write h bs = ({ h with buf := h.buf ++ bs }, some bs.length)
      ∧ (writeAll h ws).sender = h.sender
      ∧ (writeAll h ws).buf = h.buf ++ ws.flatten := by
  refine ⟨rfl, ?_, ?_⟩ <;> rw [writeAll_spec]

/-- C3 (refuted as stated): it is not the case that a flush whose buffered
bytes are invalid UTF-8 returns an error value to the operation thread; at
the concrete buffer `[255]` the flush panics instead
(`String::from_utf8(..).unwrap()`). -/
theorem flush_invalid_returns_err_refuted :
    ¬ (∀ h : DisplayHandle, isValidUtf8 h.buf = false →
        ∃ h2, DisplayHandle.flush h = FlushOutcome.err h2) := by
  intro hc
  obtain ⟨h2, hh⟩ := hc ⟨[255], ⟨[], true, true⟩⟩ (by decide)
  have hp : DisplayHandle.flush ⟨[255], ⟨[], true, true⟩⟩ = FlushOutcome.panicked := by decide
  rw [hp] at hh
  exact FlushOutcome.noConfusion hh

/-- C3 (amended): a flush whose buffered bytes are not valid UTF-8 panics
the calling thread via the `unwrap` on `String::from_utf8`; no error value
is returned to the operation thread. -/
theorem flush_invalid_panics (h : DisplayHandle) (hv : isValidUtf8 h.buf = false) :
    DisplayHandle.flush h = FlushOutcome.panicked := by
  simp [DisplayHandle.flush, hv]

/-- Witness for the amended C3 at a concrete input: the buffer `[255]` is
invalid UTF-8 and flushing it panics. -/
theorem flush_invalid_panics_witness :
    DisplayHandle.flush ⟨[255], ⟨[], true, true⟩⟩ = FlushOutcome.panicked :=
  flush_invalid_panics ⟨[255], ⟨[], true, true⟩⟩ (by decide)

/-- C9 (confirmed, modelled from the spec): under the `Disable` policy the
policy reports disabled (so no bar widget is built), and the print loop
prints every message sent before the channel closed exactly once, in send
order, with no bar state involved. -/
theorem disabled_policy_prints_in_order (q p : List Msg) :
    ProgressBarPolicy.is_enabled ProgressBarPolicy.Disable = false
      ∧ printLoop q [] = q
      ∧ printLoop q p = p ++ q := by
  refine ⟨rfl, ?_, printLoop_spec q p⟩
  simpa using printLoop_spec q []

theorem cursorTick_pos (pb : PB) (mch : MpscChannel Msg) (sample : Nat) :
    (cursorTick pb mch sample).1.pos = sample := by
  rcases htr : tryRecv mch with ⟨r, mch2⟩
  cases r <;> simp [cursorTick, htr]

theorem pathTick_some (pb : PB) (mch : MpscChannel Msg) (md : Nat → Option Nat)
    (path n : Nat) (hm : md path = some n) :
    ∃ pb2 mch2, pathTick pb mch md path = some (pb2, mch2) ∧ pb2.pos = n := by
  rcases htr : tryRecv mch with ⟨r, mch2⟩
  cases r with
  | ok m =>
    refine ⟨{ pb with pfx := m, pos := n }, mch2, ?_, rfl⟩
    simp [pathTick, hm, htr]
  | empty =>
    refine ⟨{ pb with pos := n }, mch2, ?_, rfl⟩
    simp [pathTick, hm, htr]
  | disconnected =>
    refine ⟨{ pb with pos := n }, mch2, ?_, rfl⟩
    simp [pathTick, hm, htr]

/-- C4 (refuted as stated): it is not the case that a missing output path
is sampled as 0 without error; at a concrete absent path the constructor
(`canonicalize().unwrap()`) and the tick (`metadata().unwrap()`) both
panic. -/
theorem missing_path_sampled_as_zero_refuted :
    ¬ (∀ (md : Nat → Option Nat) (path : Nat) (pb : PB) (mch : MpscChannel Msg),
        md path = none →
          (∃ p, progressByPathNew md path = some p)
            ∧ (∃ pb2 mch2, pathTick pb mch md path = some (pb2, mch2) ∧ pb2.pos = 0)) := by
  intro hc
  obtain ⟨⟨p, hp⟩, -⟩ := hc absentFs 7 ⟨1000, 0, [], false⟩ ⟨[], true, true⟩ rfl
  simp [progressByPathNew, absentFs] at hp

/-- C4 (amended): when the output path cannot be canonicalized at
construction the constructor panics, and when `metadata()` fails at a tick
the render thread panics; a missing path is never sampled as 0.  When the
path exists with size `n` at a tick, the sample read is `n`. -/
theorem missing_path_panics (canonicalize md md2 : Nat → Option Nat) (path : Nat)
    (pb : PB) (mch : MpscChannel Msg) (n : Nat)
    (hc : canonicalize path = none) (hm : md path = none) (hm2 : md2 path = some n) :
    progressByPathNew canonicalize path = none
      ∧ pathTick pb mch md path = none
      ∧ ∃ pb2 mch2, pathTick pb mch md2 path = some (pb2, mch2) ∧ pb2.pos = n := by
  refine ⟨?_, ?_, pathTick_some pb mch md2 path n hm2⟩
  · simp [progressByPathNew, hc]
  · simp [pathTick, hm]

/-- Witness for the amended C4 at concrete inputs: with no file at path 7
both construction and tick panic; once the file has size 1000 the tick
samples 1000. -/
theorem missing_path_panics_witness :
    progressByPathNew absentFs 7 = none
      ∧ pathTick ⟨1000, 0, [], false⟩ ⟨[], true, true⟩ absentFs 7 = none
      ∧ ∃ pb2 mch2,
          pathTick ⟨1000, 0, [], false⟩ ⟨[], true, true⟩ (sizedFs 1000) 7 = some (pb2, mch2)
            ∧ pb2.pos = 1000 :=
  missing_path_panics absentFs absentFs (sizedFs 1000) 7 ⟨1000, 0, [], false⟩
    ⟨[], true, true⟩ 1000 rfl rfl rfl

/-- C5 (refuted as stated): it is not the case that a flush on the display
handle after the render thread has exited (receiving half gone) avoids
panicking; at a concrete handle with valid buffered bytes the
`send(..).unwrap()` panics. -/
theorem flush_after_render_exit_no_panic_refuted :
    ¬ (∀ h : DisplayHandle, h.sender.receiverAlive = false →
        isValidUtf8 h.buf = true → DisplayHandle.flush h ≠ FlushOutcome.panicked) := by
  intro hc
  exact hc ⟨[72], ⟨[], true, false⟩⟩ rfl (by decide) (by decide)

/-- C5 (amended): channel failure is not treated as an implicit shutdown:
a flush after the receiving half is gone panics the operation thread, and
the render loop treats a disconnected, empty shutdown channel exactly like
an empty one — it keeps running rather than exiting. -/
theorem channel_failures_panic_or_spin (h : DisplayHandle) (s : Sys) (sample : Nat)
    (hra : h.sender.receiverAlive = false) (hv : isValidUtf8 h.buf = true)
    (hq : s.drawCh.queue = []) (hsa : s.drawCh.sendersAlive = false) :
    DisplayHandle.flush h = FlushOutcome.panicked
      ∧ (renderStep s sample).rpc = RenderPC.loopHead := by
  constructor
  · simp [DisplayHandle.flush, hv, mpscSend, hra]
  · simp [renderStep, tryRecv, hq, hsa]

/-- Witness for the amended C5 at concrete inputs: flushing buffer `[72]`
into a channel whose receiver is gone panics, and a render step over an
empty disconnected shutdown channel stays at the loop head. -/
theorem channel_failures_panic_or_spin_witness :
    DisplayHandle.flush ⟨[72], ⟨[], true, false⟩⟩ = FlushOutcome.panicked
      ∧ (renderStep
          ⟨⟨[], false, true⟩, ⟨[], true, true⟩, ⟨1000, 0, [], false⟩,
            RenderPC.loopHead, true, 1⟩ 5).rpc = RenderPC.loopHead :=
  channel_failures_panic_or_spin ⟨[72], ⟨[], true, false⟩⟩
    ⟨⟨[], false, true⟩, ⟨[], true, true⟩, ⟨1000, 0, [], false⟩, RenderPC.loopHead, true, 1⟩
    5 rfl (by decide) rfl rfl

/-- C6 (refuted as stated): it is not the case that a tick discards older
undrained messages and shows the most recently flushed one; with two
queued messages a tick shows the oldest and leaves the newer one queued. -/
theorem tick_shows_latest_and_discards_refuted :
    ¬ (∀ (pb : PB) (mch : MpscChannel Msg) (sample : Nat),
        mch.queue ≠ [] →
          (cursorTick pb mch sample).1.pfx = mch.queue.getLastD []
            ∧ (cursorTick pb mch sample).2.queue = []) := by
  intro hc
  have h := (hc ⟨1000, 0, [], false⟩ ⟨[[65], [66]], true, true⟩ 5 (by decide)).2
  exact absurd h (by decide)

/-- C6 (amended): on each tick the render loop drains at most one pending
message, the oldest queued one (FIFO order), and sets it as the bar's
prefix; the remaining messages stay queued for later ticks, so the bar can
show an older message than the most recently flushed one.  With an empty
queue the prefix is left unchanged. -/
theorem tick_drains_fifo_head (pb : PB) (mch mch2 : MpscChannel Msg) (sample : Nat)
    (m : Msg) (rest : List Msg) (hq : mch.queue = m :: rest) (hq2 : mch2.queue = [])
    (hs2 : mch2.sendersAlive = true) :
    cursorTick pb mch sample
        = ({ pb with pos := sample, pfx := m }, { mch with queue := rest })
      ∧ cursorTick pb mch2 sample = ({ pb with pos := sample }, mch2) := by
  constructor
  · simp [cursorTick, tryRecv, hq]
  · simp [cursorTick, tryRecv, hq2, hs2]

/-- Witness for the amended C6 at concrete inputs: with messages
`[65]` then `[66]` queued, a tick shows `[65]` and leaves `[66]` queued;
with no message queued the prefix stays. -/
theorem tick_drains_fifo_head_witness :
    cursorTick ⟨1000, 0, [], false⟩ ⟨[[65], [66]], true, true⟩ 5
        = (⟨1000, 5, [65], false⟩, ⟨[[66]], true, true⟩)
      ∧ cursorTick ⟨1000, 0, [], false⟩ ⟨[], true, true⟩ 5
        = (⟨1000, 5, [], false⟩, ⟨[], true, true⟩) :=
  tick_drains_fifo_head ⟨1000, 0, [], false⟩ ⟨[[65], [66]], true, true⟩ ⟨[], true, true⟩
    5 [65] [[66]] rfl rfl rfl

/-- C8 (refuted as stated): it is not the case that the position reported
to the bar widget never exceeds the configured total; with total 1000 and
a cursor sample of 2000 the bar is set to position 2000. -/
theorem position_clamped_refuted :
    ¬ (∀ (pb : PB) (mch : MpscChannel Msg) (sample : Nat),
        (cursorTick pb mch sample).1.pos ≤ pb.total) := by
  intro hc
  exact absurd (hc ⟨1000, 0, [], false⟩ ⟨[], true, true⟩ 2000) (by decide)

/-- C8 (amended): the sampled value is a natural number (hence ≥ 0) for
both sampler variants present in the source, and the position passed to
the bar is the raw sample — the cursor position for `ProgressByCursor` and
the file size for `ProgressByPath` — with no clamping to the total. -/
theorem position_is_raw_sample (pb : PB) (mch : MpscChannel Msg) (sample : Nat)
    (md : Nat → Option Nat) (path : Nat) (n : Nat) (hm : md path = some n) :
    0 ≤ sample
      ∧ (cursorTick pb mch sample).1.pos = sample
      ∧ ∃ pb2 mch2, pathTick pb mch md path = some (pb2, mch2) ∧ pb2.pos = n :=
  ⟨Nat.zero_le sample, cursorTick_pos pb mch sample, pathTick_some pb mch md path n hm⟩

/-- Witness for the amended C8 at concrete inputs: a cursor sample of 2000
against total 1000 is reported as position 2000, and a file of size 5000
is reported as position 5000. -/
theorem position_is_raw_sample_witness :
    0 ≤ 2000
      ∧ (cursorTick ⟨1000, 0, [], false⟩ ⟨[], true, true⟩ 2000).1.pos = 2000
      ∧ ∃ pb2 mch2,
          pathTick ⟨1000, 0, [], false⟩ ⟨[], true, true⟩ (sizedFs 5000) 3 = some (pb2, mch2)
            ∧ pb2.pos = 5000 :=
  position_is_raw_sample ⟨1000, 0, [], false⟩ ⟨[], true, true⟩ 2000 (sizedFs 5000) 3 5000 rfl

/-- C1 (refuted as stated): it is not the case that every reachable state
in which the controller has been destroyed has the render thread's final
draw done; dropping the controller right after construction yields a
reachable state that is destroyed while the bar is not finished (`Drop`
only sends the signal, there is no acknowledgement channel to block on). -/
theorem destruction_waits_for_final_draw_refuted :
    ¬ (∀ s : Sys, Reachable (initSys 1000) s → s.dropped = true →
        s.pb.finished = true) := by
  intro hc
  have h := hc (dropStep (initSys 1000))
    (Relation.ReflTransGen.single (Step.drop (initSys 1000) rfl)) (by decide)
  exact absurd h (by decide)

/-- C1 (amended): destruction sends the shutdown signal and returns
immediately without blocking — no `TeardownAck` channel exists — leaving
the bar state untouched; the render thread performs its final draw
asynchronously: once the signal is queued, its next loop-head check
finishes the bar and exits.  Output printed by the caller right after
destruction can therefore interleave with the render thread's final
frame. -/
theorem drop_signals_then_render_finishes (s : Sys) (sample : Nat)
    (hnd : s.dropped = false) (hra : s.drawCh.receiverAlive = true)
    (hpc : s.rpc = RenderPC.loopHead) :
    (dropStep s).pb = s.pb
      ∧ (dropStep s).rpc = s.rpc
      ∧ (dropStep s).drawCh.queue = s.drawCh.queue ++ [()]
      ∧ (renderStep (dropStep s) sample).pb.finished = true
      ∧ (renderStep (dropStep s) sample).rpc = RenderPC.exited := by
  refine ⟨rfl, rfl, ?_, ?_, ?_⟩ <;>
    rcases hq : s.drawCh.queue with _ | ⟨x, rest⟩ <;>
      simp [dropStep, renderStep, tryRecv, mpscSend, hra, hq]

/-- Witness for the amended C1 at the concrete initial state with total
1000: the drop leaves the bar untouched and queues the signal, and the
next render step finishes the bar and exits. -/
theorem drop_signals_then_render_finishes_witness :
    (dropStep (initSys 1000)).pb = (initSys 1000).pb
      ∧ (dropStep (initSys 1000)).rpc = (initSys 1000).rpc
      ∧ (dropStep (initSys 1000)).drawCh.queue = (initSys 1000).drawCh.queue ++ [()]
      ∧ (renderStep (dropStep (initSys 1000)) 0).pb.finished = true
      ∧ (renderStep (dropStep (initSys 1000)) 0).rpc = RenderPC.exited :=
  drop_signals_then_render_finishes (initSys 1000) 0 rfl rfl rfl

/-- C7 (confirmed): along every reachable trace at most one shutdown send
is ever performed (`Drop` runs once and is the only sender), and dropping
the controller is safe even after the render thread has exited: the send
result is discarded, so nothing panics and — the receiver being gone — no
signal is enqueued. -/
theorem shutdown_sent_at_most_once (total : Nat) (s : Sys)
    (hreach : Reachable (initSys total) s) :
    s.signalsSent ≤ 1
      ∧ (s.dropped = false →
          (dropStep s).signalsSent ≤ 1 ∧ (dropStep s).dropped = true)
      ∧ (s.rpc = RenderPC.exited → (dropStep s).drawCh.queue = s.drawCh.queue) := by
  obtain ⟨hsig, hrecv⟩ := sysInv total s hreach
  refine ⟨?_, ?_, ?_⟩
  · rw [hsig]; split <;> omega
  · intro hnd
    exact ⟨by simp [dropStep, hsig, hnd], rfl⟩
  · intro hexit
    have hra := hrecv hexit
    simp [dropStep, mpscSend, hra]

/-- Witness for C7 at the concrete initial state with total 5, reachable
by the empty trace. -/
theorem shutdown_sent_at_most_once_witness :
    (initSys 5).signalsSent ≤ 1
      ∧ ((initSys 5).dropped = false →
          (dropStep (initSys 5)).signalsSent ≤ 1 ∧ (dropStep (initSys 5)).dropped = true)
      ∧ ((initSys 5).rpc = RenderPC.exited →
          (dropStep (initSys 5)).drawCh.queue = (initSys 5).drawCh.queue) :=
  shutdown_sent_at_most_once 5 (initSys 5) Relation.ReflTransGen.refl
